import Mathlib

/-!
Verification of the azure-boards-ai workflow orchestrator core.

Shallow embedding, in Lean 4, of the session-bound workflow orchestrator and
the resilient Azure DevOps client of the `azure-boards-ai` repository, together
with theorems settling the frozen claims about it.

Embedded modules (each definition is translated from the named TypeScript
source):
* `services/azure-devops.ts` — retry wrapper (`fetchWithRetry`,
  `getRetryAfterSeconds`, `calculateBackoffDelay`), batch fetch
  (`getWorkItemsBatch`, `chunkArray`);
* `tools/execute.ts` — `execute`, `executeInBatches`,
  `createWorkItemFromSubtask`;
* `tools/plan.ts` — `generatePlan` and the four breakdown strategies;
* `tools/specify.ts` — `specify`, `analyzeWorkItem`, `buildSpecification`;
* `sessions/session-manager.ts` — `SessionManager.create`.

Modelling conventions:
* Network I/O is modelled by oracle functions supplied as parameters (e.g. a
  `Nat → FetchOutcome` giving the response to the n-th HTTP call); traces of
  calls, sleeps and credential invalidations are returned explicitly.
* JS numbers carrying ids/efforts are modelled as `Int`, counts and indices as
  `Nat`.  JS string falsiness (`""` is falsy) and `undefined` propagation are
  modelled explicitly where the code relies on them.
* Human-readable `message` strings of thrown error objects are not modelled;
  the structured fields (`statusCode`, `response` body, `retryAfterSeconds`)
  are.
-/

/-! ## Resilient client: retry wrapper (services/azure-devops.ts) -/

/-- `RetryConfig` from services/azure-devops.ts. -/
structure RetryConfig where
  maxRetries : Nat
  initialDelayMs : Nat
  maxDelayMs : Nat
  backoffMultiplier : Nat
deriving Repr, DecidableEq

/-- `DEFAULT_RETRY_CONFIG` from services/azure-devops.ts. -/
def DEFAULT_RETRY_CONFIG : RetryConfig :=
  { maxRetries := 3, initialDelayMs := 1000, maxDelayMs := 30000, backoffMultiplier := 2 }

/-- Outcome of one underlying `fetch` call.  `response status retryAfter body`
is an HTTP response; `retryAfter` models the `Retry-After` header through the
lens of JS `parseInt`: `none` = header absent (or the empty string, which is
falsy), `some none` = header present but not parseable to a number,
`some (some s)` = header parses to `s` seconds.  `networkError` is a
network-level failure (fetch rejected, no response). -/
inductive FetchOutcome where
  | response (status : Nat) (retryAfter : Option (Option Int)) (body : String)
  | networkError
deriving Repr, DecidableEq

/-- The structured content of errors thrown by the client
(services/azure-devops.ts): `AzureDevOpsError` carries an optional status code
and an optional raw response body; `RateLimitError` carries the last
retry-after value in seconds. -/
inductive AdoError where
  | azureDevOpsError (statusCode : Option Nat) (body : Option String)
  | rateLimitError (retryAfterSeconds : Int)
deriving Repr, DecidableEq

/-- Observable trace of one `fetchWithRetry` run: number of underlying `fetch`
calls made, the sleeps performed (in ms, in order), and the number of
`authService.invalidateToken()` calls. -/
structure FetchTrace where
  calls : Nat
  sleepsMs : List Int
  invalidations : Nat
deriving Repr, DecidableEq

/-- `getRetryAfterSeconds` from services/azure-devops.ts: the parsed
`Retry-After` header value, defaulting to 60 when the header is absent or does
not parse to a number. -/
def getRetryAfterSeconds (retryAfter : Option (Option Int)) : Int :=
  match retryAfter with
  | some (some seconds) => seconds
  | _ => 60

/-- `calculateBackoffDelay` from services/azure-devops.ts:
`initialDelayMs * backoffMultiplier ^ attempt`, capped at `maxDelayMs`. -/
def calculateBackoffDelay (cfg : RetryConfig) (attempt : Nat) : Nat :=
  min (cfg.initialDelayMs * cfg.backoffMultiplier ^ attempt) cfg.maxDelayMs

/-- `fetchWithRetry` from services/azure-devops.ts.  `responses n` is the
response to the n-th underlying `fetch` call of the whole run (`callIdx`
threads that counter); `attempt` is the source's `attempt` parameter.  Branches
in source order: 2xx returns the body; 429 sleeps the retry-after (in ms) and
retries while attempts remain, else throws `RateLimitError`; 401 invalidates
the cached token (always, before the attempt check), sleeps `initialDelayMs`
and retries while attempts remain, else falls through to the generic
`AzureDevOpsError` with status and body; 5xx retries with exponential backoff
while attempts remain; anything else throws `AzureDevOpsError` immediately.
A network-level failure retries with exponential backoff, and after exhaustion
throws the connectivity `AzureDevOpsError` (no status, no body). -/
def fetchWithRetry (cfg : RetryConfig) (responses : Nat → FetchOutcome)
    (callIdx : Nat) (attempt : Nat) : Except AdoError String × FetchTrace :=
  match responses callIdx with
  | .networkError =>
      if h : attempt < cfg.maxRetries then
        let rest := fetchWithRetry cfg responses (callIdx + 1) (attempt + 1)
        (rest.1, { calls := rest.2.calls + 1,
                   sleepsMs := (calculateBackoffDelay cfg attempt : Int) :: rest.2.sleepsMs,
                   invalidations := rest.2.invalidations })
      else
        (.error (.azureDevOpsError none none),
         { calls := 1, sleepsMs := [], invalidations := 0 })
  | .response status retryAfter body =>
      if 200 ≤ status ∧ status < 300 then
        (.ok body, { calls := 1, sleepsMs := [], invalidations := 0 })
      else if status = 429 then
        let retryAfterSecs := getRetryAfterSeconds retryAfter
        if h : attempt < cfg.maxRetries then
          let rest := fetchWithRetry cfg responses (callIdx + 1) (attempt + 1)
          (rest.1, { calls := rest.2.calls + 1,
                     sleepsMs := retryAfterSecs * 1000 :: rest.2.sleepsMs,
                     invalidations := rest.2.invalidations })
        else
          (.error (.rateLimitError retryAfterSecs),
           { calls := 1, sleepsMs := [], invalidations := 0 })
      else if status = 401 then
        if h : attempt < cfg.maxRetries then
          let rest := fetchWithRetry cfg responses (callIdx + 1) (attempt + 1)
          (rest.1, { calls := rest.2.calls + 1,
                     sleepsMs := (cfg.initialDelayMs : Int) :: rest.2.sleepsMs,
                     invalidations := rest.2.invalidations + 1 })
        else
          (.error (.azureDevOpsError (some 401) (some body)),
           { calls := 1, sleepsMs := [], invalidations := 1 })
      else if h : 500 ≤ status ∧ attempt < cfg.maxRetries then
        let rest := fetchWithRetry cfg responses (callIdx + 1) (attempt + 1)
        (rest.1, { calls := rest.2.calls + 1,
                   sleepsMs := (calculateBackoffDelay cfg attempt : Int) :: rest.2.sleepsMs,
                   invalidations := rest.2.invalidations })
      else
        (.error (.azureDevOpsError (some status) (some body)),
         { calls := 1, sleepsMs := [], invalidations := 0 })
termination_by cfg.maxRetries - attempt
decreasing_by
  all_goals omega

/-! ## Resilient client: batch fetch (services/azure-devops.ts) -/

/-- `chunkArray` from services/azure-devops.ts: consecutive slices of
`chunkSize` elements (`array.slice(i, i + chunkSize)` for
`i = 0, chunkSize, 2·chunkSize, …`).  The source calls it only with positive
`chunkSize`; the `chunkSize = 0` guard totalises the otherwise endless loop
and is unreachable from the call sites. -/
def chunkArray {α : Type _} (chunkSize : Nat) (array : List α) : List (List α) :=
  if chunkSize = 0 ∨ array.isEmpty then []
  else array.take chunkSize :: chunkArray chunkSize (array.drop chunkSize)
termination_by array.length
decreasing_by
  rename_i h
  simp only [not_or, List.isEmpty_eq_true] at h
  have := List.length_pos.mpr h.2
  simp only [List.length_drop]
  omega

theorem chunkArray_mem_length {α : Type _} (chunkSize : Nat) (l : List α) :
    ∀ c ∈ chunkArray chunkSize l, c.length ≤ chunkSize := by
  induction l using chunkArray.induct chunkSize with
  | case1 l h => rw [chunkArray, if_pos h]; simp
  | case2 l h ih =>
      rw [chunkArray, if_neg h]
      intro c hc
      rcases List.mem_cons.mp hc with rfl | hc
      · simp
      · exact ih c hc

/-- `getWorkItemsBatch` from services/azure-devops.ts, instrumented with the
trace of underlying single-batch HTTP requests (each recorded as the id list
passed to that request); `fetch ids` is the backend's answer to one such
request.  Empty input short-circuits with no request; an input of more than
200 ids is split by `chunkArray` into ≤200-id chunks fetched one request each,
results and traces concatenated in chunk order. -/
def getWorkItemsBatch {Item : Type _} (fetch : List Nat → List Item)
    (workItemIds : List Nat) : List Item × List (List Nat) :=
  if workItemIds = [] then ([], [])
  else if 200 < workItemIds.length then
    let chunks := chunkArray 200 workItemIds
    let results := chunks.attach.map (fun c => getWorkItemsBatch fetch c.1)
    ((results.map Prod.fst).flatten, (results.map Prod.snd).flatten)
  else (fetch workItemIds, [workItemIds])
termination_by workItemIds.length
decreasing_by
  have hle := chunkArray_mem_length 200 workItemIds c.1 c.2
  omega


/-! ## Data model (shared types, tools/plan.ts, tools/execute.ts) -/

/-- The ASCII apostrophe, written via its code point so that source strings
stay free of quote characters. -/
def apostrophe : String := String.singleton (Char.ofNat 39)

/-- The `System.*` fields of a work item that the orchestrator reads
(`fields["System.Title"]`, `fields["System.Description"]`,
`fields["System.WorkItemType"]`); `none` models an absent field
(JS `undefined`). -/
structure WorkItemFields where
  title : Option String := none
  description : Option String := none
  workItemType : Option String := none
deriving Repr, DecidableEq

/-- A work item as the orchestrator consumes it: the `id` the backend returned
(`none` models a response without an id) and the `fields` object (`none`
models a response without `fields`, which the readers replace by `{}`). -/
structure WorkItem where
  id : Option Int := none
  fields : Option WorkItemFields := none
deriving Repr, DecidableEq

/-- `workItem.fields || {}` as used throughout the tools. -/
def WorkItem.fieldsOrEmpty (w : WorkItem) : WorkItemFields :=
  w.fields.getD {}

/-- `SubTask` from tools/plan.ts. -/
structure SubTask where
  title : String
  description : String
  workItemType : String
  estimatedEffort : Option Int := none
  dependencies : Option (List Nat) := none
  priority : Option Nat := none
deriving Repr, DecidableEq

/-- `ExecutionPlan` from tools/plan.ts.  `parentTitle` is typed `string` in
the source but populated from an unchecked cast of the fetched item's title
field, which can be `undefined` at runtime; it is therefore modelled as
`Option String`. -/
structure ExecutionPlan where
  parentWorkItemId : Nat
  parentTitle : Option String
  subtasks : List SubTask
  totalEstimatedEffort : Option Int := none
  notes : Option String := none
deriving Repr, DecidableEq

/-- `CreatedTask` from tools/execute.ts. -/
structure CreatedTask where
  index : Nat
  title : String
  workItemId : Int
  url : String
deriving Repr, DecidableEq

/-- `FailedTask` from tools/execute.ts. -/
structure FailedTask where
  index : Nat
  title : String
  error : String
deriving Repr, DecidableEq

/-- `ExecutionResult` from tools/execute.ts. -/
structure ExecutionResult where
  success : Bool
  dryRun : Bool
  totalTasks : Nat
  createdTasks : List CreatedTask
  failedTasks : List FailedTask
  message : String
deriving Repr, DecidableEq

/-- The context object built by tools/specify.ts and stored in the session
working-data under the key `specifyContext`. -/
structure SpecifyContext where
  workItem : WorkItem
  children : List WorkItem
  related : List WorkItem
  userResponses : List (String × String)
deriving Repr, DecidableEq

/-- The session working-data map `session.context` with the keys the core
reads and writes; `none` models an absent key. -/
structure SessionContext where
  workItem : Option WorkItem := none
  relatedItems : Option (List WorkItem) := none
  childItems : Option (List WorkItem) := none
  specification : Option String := none
  specifyContext : Option SpecifyContext := none
  executionPlan : Option ExecutionPlan := none
  lastExecution : Option ExecutionResult := none
deriving Repr, DecidableEq

/-- `WorkItemSession` from the shared types, as the server core uses it.
Transcript entries are opaque to every claim and are modelled as strings;
`Date` timestamps are modelled as natural numbers (epoch milliseconds). -/
structure WorkItemSession where
  id : String
  workItemId : Nat
  projectId : String
  organizationUrl : String
  state : String
  transcript : List String
  context : SessionContext
  createdAt : Nat
  updatedAt : Nat
deriving Repr, DecidableEq

/-! ## Execution stage (tools/execute.ts) -/

/-- `createWorkItemFromSubtask` from tools/execute.ts.  `backendResult` is the
outcome of the one `azureDevOps.createWorkItem` call the function makes:
`.error e` models that call rejecting with error message `e`, `.ok w` models
the work item the backend returned.  A created item without an `id` becomes
the "Work item created but no ID returned" failure; `index` is the global
index passed by the caller and is embedded in the returned `CreatedTask`. -/
def createWorkItemFromSubtask (backendResult : Except String WorkItem)
    (index : Nat) (subtask : SubTask) : Except String CreatedTask :=
  match backendResult with
  | .error e => .error e
  | .ok workItem =>
      match workItem.id with
      | none => .error "Work item created but no ID returned"
      | some workItemId =>
          .ok { index := index, title := subtask.title, workItemId := workItemId,
                url := "Work item " ++ toString workItemId ++ " created" }

/-- The per-batch part of `executeInBatches` from tools/execute.ts: the
`Promise.allSettled` over the batch followed by the `forEach` that pushes
fulfilled outcomes onto `createdTasks` and rejected ones onto `failedTasks`,
in batch position order; the subtask at batch position `j` gets the global
index `batchStartIndex + j`.  `backend i t` is the settled outcome of the
`createWorkItem` call for global index `i` (concurrent execution inside a
batch settles each member independently, which the per-index oracle models).
A rejection whose message is empty is recorded as "Unknown error"
(`result.reason?.message || "Unknown error"`). -/
def collectBatchResults (backend : Nat → SubTask → Except String WorkItem)
    (batchStartIndex : Nat) : List SubTask → List CreatedTask × List FailedTask
  | [] => ([], [])
  | task :: rest =>
      let tail := collectBatchResults backend (batchStartIndex + 1) rest
      match createWorkItemFromSubtask (backend batchStartIndex task) batchStartIndex task with
      | .ok created => (created :: tail.1, tail.2)
      | .error e =>
          (tail.1,
           { index := batchStartIndex, title := task.title,
             error := if e = "" then "Unknown error" else e } :: tail.2)

/-- The sequential batch loop of `executeInBatches`: batch `k` starts at
global index `k * batchSize` (`batchStartIndex = batchIndex * batchSize` in
the source); created and failed lists are concatenated over batches in order.
The fixed between-batch sleep does not affect the collected results and is
not modelled. -/
def processBatches (backend : Nat → SubTask → Except String WorkItem)
    (batchSize : Nat) : List (List SubTask) → Nat → List CreatedTask × List FailedTask
  | [], _ => ([], [])
  | batch :: rest, batchIndex =>
      let batchResult := collectBatchResults backend (batchIndex * batchSize) batch
      let restResult := processBatches backend batchSize rest (batchIndex + 1)
      (batchResult.1 ++ restResult.1, batchResult.2 ++ restResult.2)

/-- `executeInBatches` from tools/execute.ts.  The batch-splitting loop is the
same consecutive slicing as `chunkArray` (both are
`for (i = 0; i < len; i += size) push(slice(i, i + size))`), so it is embedded
through `chunkArray`.  Overall `success` is `failedTasks.length === 0`. -/
def executeInBatches (backend : Nat → SubTask → Except String WorkItem)
    (batchSize : Nat) (subtasks : List SubTask) : ExecutionResult :=
  let batches := chunkArray batchSize subtasks
  let collected := processBatches backend batchSize batches 0
  let createdTasks := collected.1
  let failedTasks := collected.2
  let success := failedTasks.length == 0
  { success := success, dryRun := false, totalTasks := subtasks.length,
    createdTasks := createdTasks, failedTasks := failedTasks,
    message :=
      if success then
        "Successfully created " ++ toString createdTasks.length ++ " work items"
      else
        "Created " ++ toString createdTasks.length ++ " work items, " ++
          toString failedTasks.length ++ " failed" }

/-- `execute` from tools/execute.ts, for an already-validated input (the zod
schema guarantees `batchSize` is a positive integer at most 200 and defaults
`dryRun := false`, `batchSize := 50`).  `session` is what
`sessionManager.get sessionId` returned; `backend i t` is the outcome of the
backend `createWorkItem` call for global index `i` in a non-dry run.  Returns
the `ExecutionResult` paired with the session as it stands after the call
(the source mutates the session object in place: on success `state` becomes
`idle` and the result is stored under `context.lastExecution`; otherwise the
session is untouched).  Dry-run mode answers synthetically from the plan
alone — the `backend` oracle is never consulted — and leaves the session
untouched.  Errors thrown inside the body are rewrapped by the surrounding
catch into the "Failed to execute plan: …" message. -/
def execute (sessionId : String) (session : Option WorkItemSession)
    (backend : Nat → SubTask → Except String WorkItem)
    (dryRun : Bool) (batchSize : Nat) :
    Except String (ExecutionResult × WorkItemSession) :=
  match session with
  | none => .error ("Failed to execute plan: Session " ++ sessionId ++ " not found")
  | some session =>
      match session.context.executionPlan with
      | none =>
          .error ("Failed to execute plan: No execution plan found in session. Run " ++
            apostrophe ++ "plan" ++ apostrophe ++ " first.")
      | some executionPlan =>
          if dryRun then
            .ok ({ success := true, dryRun := true,
                   totalTasks := executionPlan.subtasks.length,
                   createdTasks := executionPlan.subtasks.mapIdx (fun index task =>
                     { index := index, title := task.title, workItemId := -1,
                       url := "[DRY RUN] Would create: " ++ task.title }),
                   failedTasks := [],
                   message := "Dry run: Would create " ++
                     toString executionPlan.subtasks.length ++ " work items" },
                 session)
          else
            let result := executeInBatches backend batchSize executionPlan.subtasks
            let updated :=
              if result.success then
                { session with
                    state := "idle",
                    context := { session.context with lastExecution := some result } }
              else session
            .ok (result, updated)


/-- Concrete fixtures used by witness theorems. -/
def sampleBackendOk : Nat → SubTask → Except String WorkItem :=
  fun _ _ => .ok { id := some 42 }

def sampleSubtask : SubTask :=
  { title := "a", description := "d", workItemType := "Task" }

def samplePlan : ExecutionPlan :=
  { parentWorkItemId := 1, parentTitle := some "P", subtasks := [sampleSubtask] }

def sampleSession : WorkItemSession :=
  { id := "s1", workItemId := 1, projectId := "p", organizationUrl := "o",
    state := "executing", transcript := [],
    context := { executionPlan := some samplePlan }, createdAt := 0, updatedAt := 0 }


/-! ## Session store (sessions/session-manager.ts) -/

/-- `SessionCreateRequest` from the shared types. -/
structure SessionCreateRequest where
  workItemId : Nat
  projectId : String
  organizationUrl : String
deriving Repr, DecidableEq

/-- The mutable state of a `SessionManager`: the `sessions` map (session id
→ session) and the `workItemIndex` secondary index (composite key
`organizationUrl:workItemId` → session id).  JS `Map`s are modelled as
association lists whose `set` prepends the new entry after erasing the key,
preserving `get` semantics. -/
structure SessionManagerState where
  sessions : List (String × WorkItemSession)
  workItemIndex : List (String × String)
deriving Repr, DecidableEq

/-- `Map.set`. -/
def mapSet {α : Type _} (m : List (String × α)) (k : String) (v : α) : List (String × α) :=
  (k, v) :: m.filter (fun p => p.1 != k)

/-- The existing-session check at the top of `SessionManager.create`
(`workItemIndex.get(key)` followed, when an id is found, by
`sessions.get(existingId)`); the same two lookups form the body of
`SessionManager.getByWorkItem`. -/
def SessionManager.lookupByKey (st : SessionManagerState) (key : String) :
    Option WorkItemSession :=
  match st.workItemIndex.lookup key with
  | some existingId => st.sessions.lookup existingId
  | none => none

/-- `SessionManager.create` from sessions/session-manager.ts.  The eager
work-item context load (`getWorkItem`, `getRelatedWorkItems`,
`getChildWorkItems` issued through the Azure DevOps service, including the
throw when no service is configured) is modelled by the `fetchContext`
argument; `.error` models the load rejecting, in which case creation fails
and the manager state is unchanged.  `freshId` stands for the `nanoid()`
value and `now` for `new Date()`.  A live session already indexed under the
composite key is returned as-is, before any context load. -/
def SessionManager.create (st : SessionManagerState) (request : SessionCreateRequest)
    (fetchContext : Except String (WorkItem × List WorkItem × List WorkItem))
    (freshId : String) (now : Nat) :
    Except String (WorkItemSession × SessionManagerState) :=
  let key := request.organizationUrl ++ ":" ++ toString request.workItemId
  match SessionManager.lookupByKey st key with
  | some existing => .ok (existing, st)
  | none =>
      match fetchContext with
      | .error e => .error e
      | .ok (workItem, relatedItems, childItems) =>
          let session : WorkItemSession :=
            { id := freshId, workItemId := request.workItemId,
              projectId := request.projectId,
              organizationUrl := request.organizationUrl,
              state := "idle", transcript := [],
              context := { workItem := some workItem,
                           relatedItems := some relatedItems,
                           childItems := some childItems },
              createdAt := now, updatedAt := now }
          .ok (session,
            { sessions := mapSet st.sessions session.id session,
              workItemIndex := mapSet st.workItemIndex key session.id })

/-- `SessionManager.get` from sessions/session-manager.ts. -/
def SessionManager.get (st : SessionManagerState) (id : String) : Option WorkItemSession :=
  st.sessions.lookup id


/-- Concrete fixtures for the session-manager witness. -/
def sampleRequest : SessionCreateRequest :=
  { workItemId := 7, projectId := "p", organizationUrl := "o" }

def sampleCreatedSession : WorkItemSession :=
  { id := "id1", workItemId := 7, projectId := "p", organizationUrl := "o",
    state := "idle", transcript := [],
    context := { workItem := some {}, relatedItems := some [], childItems := some [] },
    createdAt := 5, updatedAt := 5 }

def sampleManagerState : SessionManagerState :=
  { sessions := [("id1", sampleCreatedSession)],
    workItemIndex := [("o:7", "id1")] }

/-! ## Planning stage (tools/plan.ts) -/

/-- JS template interpolation of a possibly-`undefined` string:
an absent value renders as the string `undefined`. -/
def jsStr (s : Option String) : String := s.getD "undefined"

/-- JS `String.prototype.includes`: substring containment. -/
def jsIncludes (s pattern : String) : Bool :=
  decide (List.IsInfix pattern.toList s.toList)

/-- Context argument of `generatePlan` (tools/plan.ts): the validated input
id, the fields read off the fetched work item with unchecked casts (possibly
`undefined`, hence `Option`), the stored specification (already defaulted to
the placeholder by the caller), the existing children and the optional
approach hint. -/
structure PlanContext where
  workItemId : Nat
  title : Option String
  description : Option String
  workItemType : Option String
  specification : String
  existingChildren : List WorkItem
  approach : Option String
deriving Repr, DecidableEq

/-- `breakdownFeature` from tools/plan.ts (strategy for Features/Epics). -/
def breakdownFeature (title : Option String) (_description : Option String)
    (_specification : String) : List SubTask :=
  [ { title := "[Analysis] Research and design for " ++ jsStr title,
      description := "Research technical approach, design architecture, and identify dependencies",
      workItemType := "Task", estimatedEffort := some 5, priority := some 1 },
    { title := "[Implementation] Core implementation for " ++ jsStr title,
      description := "Implement main functionality based on design",
      workItemType := "Task", estimatedEffort := some 13, dependencies := some [0],
      priority := some 1 },
    { title := "[Testing] Test " ++ jsStr title,
      description := "Write unit tests, integration tests, and perform QA",
      workItemType := "Task", estimatedEffort := some 8, dependencies := some [1],
      priority := some 2 },
    { title := "[Documentation] Document " ++ jsStr title,
      description := "Update documentation, write user guides if needed",
      workItemType := "Task", estimatedEffort := some 3, dependencies := some [1],
      priority := some 3 } ]

/-- `breakdownUserStory` from tools/plan.ts. -/
def breakdownUserStory (title : Option String) (_description : Option String)
    (_specification : String) : List SubTask :=
  [ { title := "[Design] UI/UX design for " ++ jsStr title,
      description := "Create mockups and define user interactions",
      workItemType := "Task", estimatedEffort := some 3, priority := some 1 },
    { title := "[Backend] API implementation for " ++ jsStr title,
      description := "Implement backend API endpoints and business logic",
      workItemType := "Task", estimatedEffort := some 5, priority := some 1 },
    { title := "[Frontend] UI implementation for " ++ jsStr title,
      description := "Implement frontend components and integration",
      workItemType := "Task", estimatedEffort := some 5, dependencies := some [0, 1],
      priority := some 2 },
    { title := "[Testing] Test " ++ jsStr title,
      description := "Write tests and validate acceptance criteria",
      workItemType := "Task", estimatedEffort := some 3, dependencies := some [2],
      priority := some 2 } ]

/-- `breakdownBug` from tools/plan.ts. -/
def breakdownBug (title : Option String) (_description : Option String)
    (_specification : String) : List SubTask :=
  [ { title := "[Investigation] Root cause analysis for " ++ jsStr title,
      description := "Investigate and identify root cause of the bug",
      workItemType := "Task", estimatedEffort := some 2, priority := some 1 },
    { title := "[Fix] Implement fix for " ++ jsStr title,
      description := "Implement and test the fix",
      workItemType := "Task", estimatedEffort := some 3, dependencies := some [0],
      priority := some 1 },
    { title := "[Verification] Verify fix for " ++ jsStr title,
      description := "Verify fix resolves the issue and doesn't introduce regressions",
      workItemType := "Task", estimatedEffort := some 2, dependencies := some [1],
      priority := some 2 } ]

/-- `breakdownGeneric` from tools/plan.ts. -/
def breakdownGeneric (title : Option String) (_description : Option String)
    (_specification : String) : List SubTask :=
  [ { title := "[Planning] Plan " ++ jsStr title,
      description := "Define scope and approach",
      workItemType := "Task", estimatedEffort := some 2, priority := some 1 },
    { title := "[Implementation] Implement " ++ jsStr title,
      description := "Core implementation work",
      workItemType := "Task", estimatedEffort := some 8, dependencies := some [0],
      priority := some 1 },
    { title := "[Review] Review " ++ jsStr title,
      description := "Code review and testing",
      workItemType := "Task", estimatedEffort := some 3, dependencies := some [1],
      priority := some 2 } ]

/-- `addApproachSpecificTasks` from tools/plan.ts: a TDD task when the hint
contains "tdd" case-insensitively, a spike task when it contains "spike". -/
def addApproachSpecificTasks (approach : String) : List SubTask :=
  (if jsIncludes approach.toLower "tdd" then
     [ { title := "[TDD] Write tests first",
         description := "Write test cases before implementation",
         workItemType := "Task", estimatedEffort := some 3, priority := some 1 } ]
   else []) ++
  (if jsIncludes approach.toLower "spike" then
     [ { title := "[Spike] Technical investigation",
         description := "Time-boxed technical investigation",
         workItemType := "Task", estimatedEffort := some 5, priority := some 1 } ]
   else [])

/-- The subtask list `generatePlan` accumulates before duplicate filtering:
the strategy selected by the `switch` on `workItemType` (Feature and Epic
share the feature strategy, everything else — including an absent type —
falls to the generic one), followed by the approach-specific tasks when the
`approach` hint is supplied and truthy (the empty string is falsy in JS). -/
def generatedSubtasks (context : PlanContext) : List SubTask :=
  (match context.workItemType with
   | some "Feature" => breakdownFeature context.title context.description context.specification
   | some "Epic" => breakdownFeature context.title context.description context.specification
   | some "User Story" =>
       breakdownUserStory context.title context.description context.specification
   | some "Bug" => breakdownBug context.title context.description context.specification
   | _ => breakdownGeneric context.title context.description context.specification) ++
  (match context.approach with
   | some approach => if approach = "" then [] else addApproachSpecificTasks approach
   | none => [])

/-- `generatePlan` from tools/plan.ts: build the strategy subtasks, filter
out every task whose title is strictly equal (`===`) to some existing child's
`System.Title`, and aggregate the filtered tasks' efforts
(`estimatedEffort || 0`, embedded as `getD 0`, which agrees on the falsy
value `0`). -/
def generatePlan (context : PlanContext) : ExecutionPlan :=
  let subtasks := generatedSubtasks context
  let existingTitles := context.existingChildren.map (fun child => child.fieldsOrEmpty.title)
  let filteredSubtasks := subtasks.filter (fun task =>
    !(existingTitles.any (fun existing => existing == some task.title)))
  { parentWorkItemId := context.workItemId,
    parentTitle := context.title,
    subtasks := filteredSubtasks,
    totalEstimatedEffort :=
      some (filteredSubtasks.foldl (fun sum task => sum + task.estimatedEffort.getD 0) 0),
    notes :=
      if 0 < context.existingChildren.length then
        some ("Filtered out " ++ toString (subtasks.length - filteredSubtasks.length) ++
          " potentially duplicate tasks")
      else none }

/-- The dependency-validity property asserted by the spec for execution
plans: every index in any subtask's `dependencies` list is a valid index into
the plan's own `subtasks` list. -/
def depsValidInPlan (plan : ExecutionPlan) : Prop :=
  ∀ task ∈ plan.subtasks, ∀ d ∈ task.dependencies.getD [], d < plan.subtasks.length

/-- A Bug work item both of whose first two strategy subtasks already exist
as children: the filtered plan keeps only the verification task. -/
def bugContextWithExistingChildren : PlanContext :=
  { workItemId := 1, title := some "T", description := some "broken", workItemType := some "Bug",
    specification := "spec",
    existingChildren :=
      [ { fields := some { title := some "[Investigation] Root cause analysis for T" } },
        { fields := some { title := some "[Fix] Implement fix for T" } } ],
    approach := none }


def sampleBugContext : PlanContext :=
  { workItemId := 2, title := some "T", description := none, workItemType := some "Bug",
    specification := "spec", existingChildren := [], approach := none }

/-! ## Decomposition stage (tools/specify.ts) -/

/-- `SpecificationResult` from tools/specify.ts. -/
structure SpecificationResult where
  specification : String
  clarifyingQuestions : Option (List String) := none
  needsMoreInfo : Bool
  state : String
deriving Repr, DecidableEq

/-- JS truthiness of a `string | undefined` value: `undefined` and the empty
string are falsy. -/
def jsTruthyStr : Option String → Bool
  | some s => s != ""
  | none => false

/-- Argument of `buildSpecification` from tools/specify.ts. -/
structure SpecificationInfo where
  title : Option String
  description : Option String
  workItemType : Option String
  userResponses : List (String × String)
  hasChildren : Bool
  childrenCount : Nat
  relatedCount : Nat
deriving Repr, DecidableEq

/-- `buildSpecification` from tools/specify.ts: the sectioned markdown
document joined with newlines.  The user-responses record is modelled as an
association list; each section is emitted when its value is truthy. -/
def buildSpecification (info : SpecificationInfo) : String :=
  let sections : List String :=
    ["# " ++ jsStr info.title, "**Type:** " ++ jsStr info.workItemType ++ "\n"] ++
    (if jsTruthyStr info.description then
       ["## Description", (info.description.getD ""), ""] else []) ++
    (if jsTruthyStr (info.userResponses.lookup "scenarios") then
       ["## User Scenarios", ((info.userResponses.lookup "scenarios").getD ""), ""] else []) ++
    (if jsTruthyStr (info.userResponses.lookup "stakeholders") then
       ["## Stakeholders", ((info.userResponses.lookup "stakeholders").getD ""), ""] else []) ++
    (if jsTruthyStr (info.userResponses.lookup "reproduction") then
       ["## Reproduction Steps", ((info.userResponses.lookup "reproduction").getD ""), ""]
     else []) ++
    (if jsTruthyStr (info.userResponses.lookup "acceptance") then
       ["## Acceptance Criteria", ((info.userResponses.lookup "acceptance").getD ""), ""]
     else []) ++
    (if jsTruthyStr (info.userResponses.lookup "constraints") then
       ["## Technical Constraints", ((info.userResponses.lookup "constraints").getD ""), ""]
     else []) ++
    (if info.hasChildren || 0 < info.relatedCount then
       ["## Context"] ++
       (if info.hasChildren then
          ["- Has " ++ toString info.childrenCount ++ " existing subtasks"] else []) ++
       (if 0 < info.relatedCount then
          ["- Related to " ++ toString info.relatedCount ++ " other work items"] else []) ++
       [""]
     else [])
  String.intercalate "\n" sections

/-- `analyzeWorkItem` from tools/specify.ts.  `hasDescription` is the JS
truthiness of `description && description.length > 20` (string length is
modelled as character count); `hasUserInput` is
`Object.keys(userResponses).length > 0` over the record modelled as an
association list.  Questions are accumulated in source order: the three
generic questions when there is neither a long-enough description nor any
user input, the scenario/stakeholder questions for User Stories and
Features whose topics are still unanswered (empty answers are falsy), and
the two reproduction questions for Bugs without a reproduction answer.  If
no questions arose or the caller supplied any answer, a complete
specification is built; otherwise the gathering result carries the question
list. -/
def analyzeWorkItem (context : SpecifyContext) : SpecificationResult :=
  let fields := context.workItem.fieldsOrEmpty
  let title := fields.title
  let description := fields.description
  let workItemType := fields.workItemType
  let hasDescription : Bool :=
    match description with
    | some d => decide (20 < d.length)
    | none => false
  let hasChildren : Bool := decide (0 < context.children.length)
  let hasUserInput : Bool := decide (0 < context.userResponses.length)
  let questions : List String :=
    (if !hasDescription && !hasUserInput then
       ["What is the detailed description and goal of this work item?",
        "What are the acceptance criteria?",
        "Are there any technical constraints or dependencies?"]
     else []) ++
    (if workItemType == some "User Story" || workItemType == some "Feature" then
       (if !jsTruthyStr (context.userResponses.lookup "scenarios") then
          ["What are the key user scenarios or use cases?"] else []) ++
       (if !jsTruthyStr (context.userResponses.lookup "stakeholders") then
          ["Who are the stakeholders or end users?"] else [])
     else []) ++
    (if workItemType == some "Bug" && !jsTruthyStr (context.userResponses.lookup "reproduction")
     then
       ["What are the steps to reproduce the issue?",
        "What is the expected vs actual behavior?"]
     else [])
  if questions.length == 0 || hasUserInput then
    { specification := buildSpecification
        { title := title, description := description, workItemType := workItemType,
          userResponses := context.userResponses, hasChildren := hasChildren,
          childrenCount := context.children.length, relatedCount := context.related.length },
      needsMoreInfo := false, state := "complete" }
  else
    { specification := "Analyzing work item: " ++ jsStr title,
      clarifyingQuestions := some questions,
      needsMoreInfo := true, state := "gathering" }

/-- `specify` from tools/specify.ts, for a validated input.  `session` is
what `sessionManager.get sessionId` returned; `workItem`, `children` and
`related` are the values the three context fetches resolved with (a fetch
rejection would be rewrapped as a "Failed to specify work item: …" error
before any session mutation and is outside the claims).  The specify context
is stored into the session working-data unconditionally, before the
analysis; only a complete analysis additionally sets the stage to `specify`
and stores the rendered specification. -/
def specify (sessionId : String) (session : Option WorkItemSession)
    (workItem : WorkItem) (children related : List WorkItem)
    (userResponses : Option (List (String × String))) :
    Except String (SpecificationResult × WorkItemSession) :=
  match session with
  | none => .error ("Failed to specify work item: Session " ++ sessionId ++ " not found")
  | some session =>
      let context : SpecifyContext :=
        { workItem := workItem, children := children, related := related,
          userResponses := userResponses.getD [] }
      let session1 :=
        { session with context := { session.context with specifyContext := some context } }
      let result := analyzeWorkItem context
      if result.state == "complete" then
        .ok (result,
          { session1 with
              state := "specify",
              context := { session1.context with specification := some result.specification } })
      else
        .ok (result, session1)

/-! ## Theorems are collected at the end of the file, after all definitions. -/

theorem fetchWithRetry_persistent429 (cfg : RetryConfig) (responses : Nat → FetchOutcome)
    (ra : Nat → Option (Option Int)) (body : Nat → String)
    (hresp : ∀ n, responses n = .response 429 (ra n) (body n)) :
    ∀ (k c attempt : Nat), cfg.maxRetries - attempt = k →
      fetchWithRetry cfg responses c attempt =
        (.error (.rateLimitError (getRetryAfterSeconds (ra (c + k)))),
         { calls := k + 1,
           sleepsMs := (List.range k).map (fun j => getRetryAfterSeconds (ra (c + j)) * 1000),
           invalidations := 0 }) := by
  intro k
  induction k with
  | zero =>
      intro c attempt hk
      rw [fetchWithRetry, hresp c]
      simp only [show ¬(200 ≤ 429 ∧ 429 < 300) by omega, if_false, if_pos rfl]
      rw [dif_neg (by omega)]
      simp
  | succ k ih =>
      intro c attempt hk
      rw [fetchWithRetry, hresp c]
      simp only [show ¬(200 ≤ 429 ∧ 429 < 300) by omega, if_false, if_pos rfl]
      rw [dif_pos (by omega), ih (c + 1) (attempt + 1) (by omega)]
      simp only [if_true]
      have hr : List.map (fun j => getRetryAfterSeconds (ra (c + j)) * 1000) (List.range (k + 1))
          = getRetryAfterSeconds (ra c) * 1000 ::
            List.map (fun j => getRetryAfterSeconds (ra (c + 1 + j)) * 1000) (List.range k) := by
        rw [List.range_succ_eq_map, List.map_cons, List.map_map]
        simp only [Nat.add_zero]
        congr 1
        refine List.map_congr_left ?_
        intro j hj
        simp only [Function.comp_apply]
        rw [show c + 1 + j = c + (j + 1) by omega]
      rw [hr, show c + (k + 1) = c + 1 + k by omega]

/-- C6: under persistently 429 responses, `fetchWithRetry` sleeps the parsed
Retry-After value (in ms) before each retry, makes exactly `maxRetries + 1`
underlying calls, performs no credential invalidation, and fails with a
`RateLimitError` carrying the retry-after value of the last response; the
parsed value defaults to 60 when the header is absent or unparseable. -/
theorem claim_C6_persistent_429_exhausts (cfg : RetryConfig) (responses : Nat → FetchOutcome)
    (ra : Nat → Option (Option Int)) (body : Nat → String)
    (hresp : ∀ n, responses n = .response 429 (ra n) (body n)) :
    fetchWithRetry cfg responses 0 0 =
      (.error (.rateLimitError (getRetryAfterSeconds (ra cfg.maxRetries))),
       { calls := cfg.maxRetries + 1,
         sleepsMs := (List.range cfg.maxRetries).map
           (fun j => getRetryAfterSeconds (ra j) * 1000),
         invalidations := 0 })
    ∧ getRetryAfterSeconds none = 60 ∧ getRetryAfterSeconds (some none) = 60 := by
  refine ⟨?_, rfl, rfl⟩
  have h := fetchWithRetry_persistent429 cfg responses ra body hresp cfg.maxRetries 0 0 (by omega)
  simpa using h

/-- Witness for C6 at the default retry configuration and a constant
`Retry-After: 7` response stream. -/
theorem claim_C6_witness :
    fetchWithRetry DEFAULT_RETRY_CONFIG (fun _ => .response 429 (some (some 7)) "throttled") 0 0 =
      (.error (.rateLimitError 7),
       { calls := 4, sleepsMs := [7000, 7000, 7000], invalidations := 0 }) := by
  have h := claim_C6_persistent_429_exhausts DEFAULT_RETRY_CONFIG
      (fun _ => .response 429 (some (some 7)) "throttled")
      (fun _ => some (some 7)) (fun _ => "throttled") (fun _ => rfl)
  exact h.1.trans (by rfl)

theorem fetchWithRetry_persistent401 (cfg : RetryConfig) (responses : Nat → FetchOutcome)
    (ra : Nat → Option (Option Int)) (body : Nat → String)
    (hresp : ∀ n, responses n = .response 401 (ra n) (body n)) :
    ∀ (k c attempt : Nat), cfg.maxRetries - attempt = k →
      fetchWithRetry cfg responses c attempt =
        (.error (.azureDevOpsError (some 401) (some (body (c + k)))),
         { calls := k + 1,
           sleepsMs := List.replicate k (cfg.initialDelayMs : Int),
           invalidations := k + 1 }) := by
  intro k
  induction k with
  | zero =>
      intro c attempt hk
      rw [fetchWithRetry, hresp c]
      simp only [show ¬(200 ≤ 401 ∧ 401 < 300) by omega, if_false,
        show ¬(401 = 429) by omega, if_pos rfl, if_true]
      rw [dif_neg (by omega)]
      simp
  | succ k ih =>
      intro c attempt hk
      rw [fetchWithRetry, hresp c]
      simp only [show ¬(200 ≤ 401 ∧ 401 < 300) by omega, if_false,
        show ¬(401 = 429) by omega, if_pos rfl, if_true]
      rw [dif_pos (by omega), ih (c + 1) (attempt + 1) (by omega)]
      rw [show c + 1 + k = c + (k + 1) by omega, List.replicate_succ]

/-- C7: under persistently 401 responses, `fetchWithRetry` invalidates the
cached credential exactly once per 401 response (`maxRetries + 1` responses,
`maxRetries + 1` invalidations), sleeps the fixed `initialDelayMs` (not an
exponential backoff) before each of its `maxRetries` retries, and after
exhaustion fails with the generic `AzureDevOpsError` carrying status 401 and
the last response body — not an auth-specific terminal error. -/
theorem claim_C7_persistent_401 (cfg : RetryConfig) (responses : Nat → FetchOutcome)
    (ra : Nat → Option (Option Int)) (body : Nat → String)
    (hresp : ∀ n, responses n = .response 401 (ra n) (body n)) :
    fetchWithRetry cfg responses 0 0 =
      (.error (.azureDevOpsError (some 401) (some (body cfg.maxRetries))),
       { calls := cfg.maxRetries + 1,
         sleepsMs := List.replicate cfg.maxRetries (cfg.initialDelayMs : Int),
         invalidations := cfg.maxRetries + 1 }) := by
  have h := fetchWithRetry_persistent401 cfg responses ra body hresp cfg.maxRetries 0 0 (by omega)
  simpa using h

/-- Witness for C7 at the default retry configuration. -/
theorem claim_C7_witness :
    fetchWithRetry DEFAULT_RETRY_CONFIG (fun _ => .response 401 none "unauthorized") 0 0 =
      (.error (.azureDevOpsError (some 401) (some "unauthorized")),
       { calls := 4, sleepsMs := [1000, 1000, 1000], invalidations := 4 }) := by
  have h := claim_C7_persistent_401 DEFAULT_RETRY_CONFIG
      (fun _ => .response 401 none "unauthorized")
      (fun _ => none) (fun _ => "unauthorized") (fun _ => rfl)
  exact h.trans (by rfl)

/-- C5: batch fetch of an empty id list answers with no underlying request at
all, and batch fetch of a 250-id list issues exactly two underlying requests —
the first 200 ids, then the remaining 50 — returning the two responses
concatenated in chunk order. -/
theorem claim_C5_batch_fetch_chunking {Item : Type _} (fetch : List Nat → List Item)
    (ids : List Nat) (hlen : ids.length = 250) :
    getWorkItemsBatch fetch ids =
      (fetch (ids.take 200) ++ fetch (ids.drop 200), [ids.take 200, ids.drop 200])
    ∧ (ids.take 200).length = 200 ∧ (ids.drop 200).length = 50
    ∧ getWorkItemsBatch fetch ([] : List Nat) = ([], []) := by
  have hne : ids ≠ [] := by
    intro h; rw [h] at hlen; simp at hlen
  have htake : (ids.take 200).length = 200 := by simp [hlen]
  have hdrop : (ids.drop 200).length = 50 := by simp [hlen]
  refine ⟨?_, htake, hdrop, by rw [getWorkItemsBatch]; simp⟩
  have hdropne : ids.drop 200 ≠ [] := by
    intro h; rw [h] at hdrop; simp at hdrop
  have ht2 : (ids.drop 200).take 200 = ids.drop 200 := List.take_of_length_le (by omega)
  have hd2 : (ids.drop 200).drop 200 = [] := List.drop_eq_nil_of_le (by omega)
  have hchunks : chunkArray 200 ids = [ids.take 200, ids.drop 200] := by
    rw [chunkArray, if_neg (by simp [hne])]
    rw [chunkArray, if_neg (by simp [hdropne])]
    rw [ht2, hd2, chunkArray, if_pos (by simp)]
  have hsub1 : getWorkItemsBatch fetch (ids.take 200) = (fetch (ids.take 200), [ids.take 200]) := by
    rw [getWorkItemsBatch]
    rw [if_neg (by intro h; rw [h] at htake; simp at htake), if_neg (by omega)]
  have hsub2 : getWorkItemsBatch fetch (ids.drop 200) = (fetch (ids.drop 200), [ids.drop 200]) := by
    rw [getWorkItemsBatch]
    rw [if_neg (by intro h; rw [h] at hdrop; simp at hdrop), if_neg (by omega)]
  rw [getWorkItemsBatch, if_neg hne, if_pos (by omega)]
  simp only [List.attach_map_coe, hchunks, List.map_cons, List.map_nil, hsub1, hsub2]
  simp

/-- Witness for C5 on the concrete id list `0, 1, …, 249` and the echo
backend. -/
theorem claim_C5_witness :
    getWorkItemsBatch (fun l => l) (List.range 250) =
      (List.range 250, [(List.range 250).take 200, (List.range 250).drop 200]) ∧
    getWorkItemsBatch (fun l => l) ([] : List Nat) = ([], []) := by
  have h := claim_C5_batch_fetch_chunking (fun l => l) (List.range 250) (by simp)
  exact ⟨h.1.trans (by rw [List.take_append_drop]), h.2.2.2⟩

theorem createWorkItemFromSubtask_index (backendResult : Except String WorkItem)
    (idx : Nat) (t : SubTask) (c : CreatedTask)
    (h : createWorkItemFromSubtask backendResult idx t = .ok c) : c.index = idx := by
  rcases backendResult with e | w
  · simp [createWorkItemFromSubtask] at h
  · rcases hid : w.id with _ | wid
    · simp [createWorkItemFromSubtask, hid] at h
    · simp [createWorkItemFromSubtask, hid] at h
      rw [← h]

theorem collectBatchResults_countP (backend : Nat → SubTask → Except String WorkItem)
    (i : Nat) :
    ∀ (ts : List SubTask) (start : Nat),
      (collectBatchResults backend start ts).1.countP (fun c => c.index == i)
        + (collectBatchResults backend start ts).2.countP (fun f => f.index == i)
      = if start ≤ i ∧ i < start + ts.length then 1 else 0 := by
  intro ts
  induction ts with
  | nil =>
      intro start
      rw [collectBatchResults]
      simp only [List.countP_nil, Nat.add_zero, List.length_nil]
      rw [if_neg (by omega)]
  | cons t ts ih =>
      intro start
      rw [collectBatchResults]
      have h1 := ih (start + 1)
      cases h : createWorkItemFromSubtask (backend start t) start t with
      | ok c =>
          have hc := createWorkItemFromSubtask_index (backend start t) start t c h
          simp only [List.countP_cons, List.length_cons, hc]
          by_cases hsi : start = i
          · subst hsi
            simp only [beq_self_eq_true, if_true]
            split_ifs at h1 ⊢ <;> omega
          · rw [beq_eq_false_iff_ne.mpr hsi]
            simp only [Bool.false_eq_true, if_false]
            split_ifs at h1 ⊢ <;> omega
      | error e =>
          simp only [List.countP_cons, List.length_cons]
          by_cases hsi : start = i
          · subst hsi
            simp only [beq_self_eq_true, if_true]
            split_ifs at h1 ⊢ <;> omega
          · rw [beq_eq_false_iff_ne.mpr hsi]
            simp only [Bool.false_eq_true, if_false]
            split_ifs at h1 ⊢ <;> omega

theorem collectBatchResults_length (backend : Nat → SubTask → Except String WorkItem) :
    ∀ (ts : List SubTask) (start : Nat),
      (collectBatchResults backend start ts).1.length
        + (collectBatchResults backend start ts).2.length = ts.length := by
  intro ts
  induction ts with
  | nil => intro start; rw [collectBatchResults]; rfl
  | cons t ts ih =>
      intro start
      rw [collectBatchResults]
      have h1 := ih (start + 1)
      cases h : createWorkItemFromSubtask (backend start t) start t with
      | ok c => simp only [List.length_cons]; omega
      | error e => simp only [List.length_cons]; omega

theorem processBatches_chunk_countP (backend : Nat → SubTask → Except String WorkItem)
    (B i : Nat) (hB : 0 < B) :
    ∀ (n : Nat) (l : List SubTask), l.length ≤ n → ∀ (k : Nat),
      (processBatches backend B (chunkArray B l) k).1.countP (fun c => c.index == i)
        + (processBatches backend B (chunkArray B l) k).2.countP (fun f => f.index == i)
      = if k * B ≤ i ∧ i < k * B + l.length then 1 else 0 := by
  intro n
  induction n with
  | zero =>
      intro l hl k
      have hnil : l = [] := List.eq_nil_of_length_eq_zero (by omega)
      subst hnil
      rw [chunkArray, if_pos (by simp), processBatches]
      simp only [List.countP_nil, Nat.add_zero, List.length_nil]
      rw [if_neg (by omega)]
  | succ n ih =>
      intro l hl k
      rcases eq_or_ne l [] with rfl | hne
      · rw [chunkArray, if_pos (by simp), processBatches]
        simp only [List.countP_nil, Nat.add_zero, List.length_nil]
        rw [if_neg (by omega)]
      · rw [chunkArray, if_neg (by simp [hne]; omega), processBatches]
        have h1 := collectBatchResults_countP backend i (l.take B) (k * B)
        have h2 := ih (l.drop B) (by simp; omega) (k + 1)
        rw [Nat.add_mul, Nat.one_mul] at h2
        simp only [List.countP_append]
        rw [List.length_take] at h1
        rw [List.length_drop] at h2
        have hlen : 0 < l.length := List.length_pos.mpr hne
        split_ifs at h1 h2 ⊢ <;> omega

theorem processBatches_chunk_length (backend : Nat → SubTask → Except String WorkItem)
    (B : Nat) (hB : 0 < B) :
    ∀ (n : Nat) (l : List SubTask), l.length ≤ n → ∀ (k : Nat),
      (processBatches backend B (chunkArray B l) k).1.length
        + (processBatches backend B (chunkArray B l) k).2.length = l.length := by
  intro n
  induction n with
  | zero =>
      intro l hl k
      have hnil : l = [] := List.eq_nil_of_length_eq_zero (by omega)
      subst hnil
      rw [chunkArray, if_pos (by simp), processBatches]
      rfl
  | succ n ih =>
      intro l hl k
      rcases eq_or_ne l [] with rfl | hne
      · rw [chunkArray, if_pos (by simp), processBatches]; rfl
      · rw [chunkArray, if_neg (by simp [hne]; omega), processBatches]
        have h1 := collectBatchResults_length backend (l.take B) (k * B)
        have h2 := ih (l.drop B) (by simp; omega) (k + 1)
        simp only [List.length_append]
        rw [List.length_take] at h1
        rw [List.length_drop] at h2
        have hlen : 0 < l.length := List.length_pos.mpr hne
        omega

/-- C1: a non-dry-run execution of a plan with `N` subtasks partitions the
global indices `0 … N-1` between `createdTasks` and `failedTasks`:
`totalTasks = N`, the two lists' lengths sum to `N`, and every global index
below `N` occurs in exactly one entry of the two lists taken together
(indices are global across the whole plan, not chunk-local). -/
theorem claim_C1_created_failed_partition (backend : Nat → SubTask → Except String WorkItem)
    (batchSize : Nat) (subtasks : List SubTask) (hB : 0 < batchSize) :
    (executeInBatches backend batchSize subtasks).totalTasks = subtasks.length
    ∧ (executeInBatches backend batchSize subtasks).createdTasks.length
        + (executeInBatches backend batchSize subtasks).failedTasks.length = subtasks.length
    ∧ ∀ i, i < subtasks.length →
        (executeInBatches backend batchSize subtasks).createdTasks.countP (fun c => c.index == i)
          + (executeInBatches backend batchSize subtasks).failedTasks.countP
              (fun f => f.index == i) = 1 := by
  refine ⟨rfl, ?_, ?_⟩
  · have h := processBatches_chunk_length backend batchSize hB subtasks.length subtasks
      (Nat.le_refl _) 0
    simpa [executeInBatches] using h
  · intro i hi
    have h := processBatches_chunk_countP backend batchSize i hB subtasks.length subtasks
      (Nat.le_refl _) 0
    rw [Nat.zero_mul] at h
    rw [if_pos (by omega)] at h
    simpa [executeInBatches] using h

/-- Witness for C1: three subtasks, batch size 2, the middle creation
rejected by the backend. -/
theorem claim_C1_witness :
    (0 : Nat) < 2
    ∧ (executeInBatches
        (fun i _ => if i = 1 then .error "boom" else .ok { id := some 7 })
        2
        [{ title := "a", description := "", workItemType := "Task" },
         { title := "b", description := "", workItemType := "Task" },
         { title := "c", description := "", workItemType := "Task" }]).createdTasks.length
      + (executeInBatches
        (fun i _ => if i = 1 then .error "boom" else .ok { id := some 7 })
        2
        [{ title := "a", description := "", workItemType := "Task" },
         { title := "b", description := "", workItemType := "Task" },
         { title := "c", description := "", workItemType := "Task" }]).failedTasks.length = 3
    ∧ (1 : Nat) < 3
    ∧ (executeInBatches
        (fun i _ => if i = 1 then .error "boom" else .ok { id := some 7 })
        2
        [{ title := "a", description := "", workItemType := "Task" },
         { title := "b", description := "", workItemType := "Task" },
         { title := "c", description := "", workItemType := "Task" }]).createdTasks.countP
          (fun c => c.index == 1)
      + (executeInBatches
        (fun i _ => if i = 1 then .error "boom" else .ok { id := some 7 })
        2
        [{ title := "a", description := "", workItemType := "Task" },
         { title := "b", description := "", workItemType := "Task" },
         { title := "c", description := "", workItemType := "Task" }]).failedTasks.countP
          (fun f => f.index == 1) = 1 := by
  refine ⟨by decide, ?_, by decide, ?_⟩
  · exact (claim_C1_created_failed_partition
      (fun i _ => if i = 1 then .error "boom" else .ok { id := some 7 }) 2
      [{ title := "a", description := "", workItemType := "Task" },
       { title := "b", description := "", workItemType := "Task" },
       { title := "c", description := "", workItemType := "Task" }] (by decide)).2.1
  · exact (claim_C1_created_failed_partition
      (fun i _ => if i = 1 then .error "boom" else .ok { id := some 7 }) 2
      [{ title := "a", description := "", workItemType := "Task" },
       { title := "b", description := "", workItemType := "Task" },
       { title := "c", description := "", workItemType := "Task" }] (by decide)).2.2 1 (by decide)

/-- C2: for a non-dry-run execution, the result's `success` flag is true
exactly when `failedTasks` is empty; on success the session's stage is set to
`idle` and the result is stored as `context.lastExecution` (everything else
unchanged); on any failure the session is left entirely unchanged — stage
untouched and no last-execution record written. -/
theorem claim_C2_success_iff_no_failures (sessionId : String) (session : WorkItemSession)
    (executionPlan : ExecutionPlan) (backend : Nat → SubTask → Except String WorkItem)
    (batchSize : Nat)
    (hplan : session.context.executionPlan = some executionPlan) :
    ((executeInBatches backend batchSize executionPlan.subtasks).success = true
      ↔ (executeInBatches backend batchSize executionPlan.subtasks).failedTasks = [])
    ∧ ((executeInBatches backend batchSize executionPlan.subtasks).success = true →
        execute sessionId (some session) backend false batchSize =
          .ok (executeInBatches backend batchSize executionPlan.subtasks,
            { session with
                state := "idle",
                context := { session.context with
                  lastExecution :=
                    some (executeInBatches backend batchSize executionPlan.subtasks) } }))
    ∧ ((executeInBatches backend batchSize executionPlan.subtasks).success = false →
        execute sessionId (some session) backend false batchSize =
          .ok (executeInBatches backend batchSize executionPlan.subtasks, session)) := by
  refine ⟨?_, ?_, ?_⟩
  · simp [executeInBatches, List.length_eq_zero]
  · intro hs
    simp [execute, hplan, hs]
  · intro hs
    simp [execute, hplan, hs]

/-- Witness for C2: a one-subtask plan executed against a backend that
accepts every creation. -/
theorem claim_C2_witness :
    (executeInBatches sampleBackendOk 50 samplePlan.subtasks).success = true
    ∧ execute "s1" (some sampleSession) sampleBackendOk false 50 =
        .ok (executeInBatches sampleBackendOk 50 samplePlan.subtasks,
          { sampleSession with
              state := "idle",
              context := { sampleSession.context with
                lastExecution :=
                  some (executeInBatches sampleBackendOk 50 samplePlan.subtasks) } }) := by
  have hval : (executeInBatches sampleBackendOk 50 samplePlan.subtasks).success = true := by
    simp [executeInBatches, chunkArray, processBatches, collectBatchResults,
      createWorkItemFromSubtask, sampleBackendOk, samplePlan, sampleSubtask]
  refine ⟨hval, ?_⟩
  exact (claim_C2_success_iff_no_failures "s1" sampleSession samplePlan sampleBackendOk 50
    rfl).2.1 hval

/-- C3: a dry-run execution reports every descriptor as created — the result
is successful, flagged as a dry run, has one created entry per subtask (same
titles in the same order, the sentinel work-item id `-1`, and the
"[DRY RUN] Would create: …" placeholder reference), no failed entries — while
consulting the backend oracle not at all and leaving the session (in
particular its stage) unchanged. -/
theorem claim_C3_dry_run_synthetic (sessionId : String) (session : WorkItemSession)
    (executionPlan : ExecutionPlan) (backend backend2 : Nat → SubTask → Except String WorkItem)
    (batchSize : Nat)
    (hplan : session.context.executionPlan = some executionPlan) :
    ∃ r, execute sessionId (some session) backend true batchSize = .ok (r, session)
      ∧ r.success = true ∧ r.dryRun = true ∧ r.failedTasks = []
      ∧ r.createdTasks.length = executionPlan.subtasks.length
      ∧ r.createdTasks.map (fun c => c.title)
          = executionPlan.subtasks.map (fun t => t.title)
      ∧ (∀ c ∈ r.createdTasks,
          c.workItemId = -1 ∧ c.url = "[DRY RUN] Would create: " ++ c.title)
      ∧ execute sessionId (some session) backend true batchSize
          = execute sessionId (some session) backend2 true batchSize := by
  refine ⟨{ success := true, dryRun := true,
            totalTasks := executionPlan.subtasks.length,
            createdTasks := executionPlan.subtasks.mapIdx (fun index task =>
              { index := index, title := task.title, workItemId := -1,
                url := "[DRY RUN] Would create: " ++ task.title }),
            failedTasks := [],
            message := "Dry run: Would create " ++
              toString executionPlan.subtasks.length ++ " work items" },
         ?_, rfl, rfl, rfl, ?_, ?_, ?_, ?_⟩
  · simp [execute, hplan]
  · simp
  · apply List.ext_getElem
    · simp
    · intro n h1 h2
      simp
  · intro c hc
    simp only [List.mem_mapIdx] at hc
    obtain ⟨i, hi, rfl⟩ := hc
    exact ⟨rfl, rfl⟩
  · simp [execute, hplan]

/-- Witness for C3 on the one-subtask sample plan and two distinct backends. -/
theorem claim_C3_witness :
    ∃ r, execute "s1" (some sampleSession)
          (fun _ _ => .error "never called") true 50 = .ok (r, sampleSession)
      ∧ r.success = true ∧ r.dryRun = true ∧ r.failedTasks = []
      ∧ r.createdTasks.length = samplePlan.subtasks.length
      ∧ r.createdTasks.map (fun c => c.title)
          = samplePlan.subtasks.map (fun t => t.title)
      ∧ (∀ c ∈ r.createdTasks,
          c.workItemId = -1 ∧ c.url = "[DRY RUN] Would create: " ++ c.title)
      ∧ execute "s1" (some sampleSession) (fun _ _ => .error "never called") true 50
          = execute "s1" (some sampleSession) sampleBackendOk true 50 :=
  claim_C3_dry_run_synthetic "s1" sampleSession samplePlan
    (fun _ _ => .error "never called") sampleBackendOk 50 rfl
theorem lookup_mapSet_self {α : Type _} (m : List (String × α)) (k : String) (v : α) :
    (mapSet m k v).lookup k = some v := by
  simp [mapSet, List.lookup]

theorem lookupByKey_mapSet (sessions : List (String × WorkItemSession))
    (idx : List (String × String)) (key id : String) (sess : WorkItemSession) :
    SessionManager.lookupByKey
      { sessions := mapSet sessions id sess, workItemIndex := mapSet idx key id } key
      = some sess := by
  simp [SessionManager.lookupByKey, lookup_mapSet_self]

/-- C4: get-or-create is idempotent — when a `create` call succeeds with
session `s` and state `st'`, a second `create` for the same (organization,
work-item) request returns the very same session `s` and leaves the state at
`st'`, no matter what context-fetch outcome, fresh id or timestamp the second
call is given; in particular no duplicate session is built, so at most one
live session exists per key. -/
theorem claim_C4_create_idempotent (st st' : SessionManagerState)
    (request : SessionCreateRequest)
    (fetch1 fetch2 : Except String (WorkItem × List WorkItem × List WorkItem))
    (id1 id2 : String) (now1 now2 : Nat) (s : WorkItemSession)
    (h : SessionManager.create st request fetch1 id1 now1 = .ok (s, st')) :
    SessionManager.create st' request fetch2 id2 now2 = .ok (s, st') := by
  simp only [SessionManager.create] at h ⊢
  cases hfound : SessionManager.lookupByKey st
      (request.organizationUrl ++ ":" ++ toString request.workItemId) with
  | some existing =>
      rw [hfound] at h
      simp only [Except.ok.injEq, Prod.mk.injEq] at h
      obtain ⟨rfl, rfl⟩ := h
      rw [hfound]
  | none =>
      rw [hfound] at h
      cases fetch1 with
      | error e => simp at h
      | ok ctx =>
          obtain ⟨workItem, relatedItems, childItems⟩ := ctx
          simp only [Except.ok.injEq, Prod.mk.injEq] at h
          obtain ⟨rfl, rfl⟩ := h
          rw [lookupByKey_mapSet]

/-- Witness for C4: creating twice for work item 7 of organization `o`,
starting from an empty manager. -/
theorem claim_C4_witness :
    SessionManager.create { sessions := [], workItemIndex := [] } sampleRequest
        (.ok ({}, [], [])) "id1" 5 = .ok (sampleCreatedSession, sampleManagerState)
    ∧ SessionManager.create sampleManagerState sampleRequest (.error "backend down") "id2" 9
        = .ok (sampleCreatedSession, sampleManagerState) := by
  have h1 : SessionManager.create { sessions := [], workItemIndex := [] } sampleRequest
      (.ok ({}, [], [])) "id1" 5 = .ok (sampleCreatedSession, sampleManagerState) := by rfl
  exact ⟨h1, claim_C4_create_idempotent _ _ _ _ _ _ _ _ _ _ h1⟩

theorem foldl_add_effort (l : List SubTask) : ∀ (init : Int),
    l.foldl (fun sum task => sum + task.estimatedEffort.getD 0) init
      = init + (l.map (fun task => task.estimatedEffort.getD 0)).sum := by
  induction l with
  | nil => intro init; simp
  | cons t ts ih =>
      intro init
      simp only [List.foldl_cons, List.map_cons, List.sum_cons, ih]
      ring

/-- C8: the plan's subtask list is exactly the generated list filtered by
"no existing child has this exact title" (case-sensitive string equality);
survivors are untouched and keep their order, and the aggregate effort is the
sum of the surviving descriptors' estimates with missing estimates counted as
zero. -/
theorem claim_C8_duplicate_title_filtering (context : PlanContext) :
    (generatePlan context).subtasks
      = (generatedSubtasks context).filter (fun task =>
          decide (¬ ∃ child ∈ context.existingChildren,
            child.fieldsOrEmpty.title = some task.title))
    ∧ List.Sublist (generatePlan context).subtasks (generatedSubtasks context)
    ∧ (generatePlan context).totalEstimatedEffort
        = some (((generatePlan context).subtasks.map
            (fun task => task.estimatedEffort.getD 0)).sum) := by
  have h1 : (generatePlan context).subtasks
      = (generatedSubtasks context).filter (fun task =>
          decide (¬ ∃ child ∈ context.existingChildren,
            child.fieldsOrEmpty.title = some task.title)) := by
    simp only [generatePlan]
    apply List.filter_congr
    intro task _
    rw [Bool.eq_iff_iff]
    simp [List.any_map, List.any_eq_true]
  refine ⟨h1, h1 ▸ List.filter_sublist _, ?_⟩
  simp only [generatePlan]
  rw [foldl_add_effort]
  simp

theorem breakdownFeature_deps (t d0 : Option String) (s : String) :
    ∀ task ∈ breakdownFeature t d0 s, ∀ d ∈ task.dependencies.getD [], d < 3 := by
  intro task htask d hd
  simp only [breakdownFeature, List.mem_cons, List.not_mem_nil, or_false] at htask
  rcases htask with rfl | rfl | rfl | rfl <;> simp at hd <;> omega

theorem breakdownUserStory_deps (t d0 : Option String) (s : String) :
    ∀ task ∈ breakdownUserStory t d0 s, ∀ d ∈ task.dependencies.getD [], d < 3 := by
  intro task htask d hd
  simp only [breakdownUserStory, List.mem_cons, List.not_mem_nil, or_false] at htask
  rcases htask with rfl | rfl | rfl | rfl <;> simp at hd <;> omega

theorem breakdownBug_deps (t d0 : Option String) (s : String) :
    ∀ task ∈ breakdownBug t d0 s, ∀ d ∈ task.dependencies.getD [], d < 3 := by
  intro task htask d hd
  simp only [breakdownBug, List.mem_cons, List.not_mem_nil, or_false] at htask
  rcases htask with rfl | rfl | rfl <;> simp at hd <;> omega

theorem breakdownGeneric_deps (t d0 : Option String) (s : String) :
    ∀ task ∈ breakdownGeneric t d0 s, ∀ d ∈ task.dependencies.getD [], d < 3 := by
  intro task htask d hd
  simp only [breakdownGeneric, List.mem_cons, List.not_mem_nil, or_false] at htask
  rcases htask with rfl | rfl | rfl <;> simp at hd <;> omega

theorem generatedSubtasks_length_ge (context : PlanContext) :
    3 ≤ (generatedSubtasks context).length := by
  rw [generatedSubtasks, List.length_append]
  have h : 3 ≤ (match context.workItemType with
   | some "Feature" => breakdownFeature context.title context.description context.specification
   | some "Epic" => breakdownFeature context.title context.description context.specification
   | some "User Story" =>
       breakdownUserStory context.title context.description context.specification
   | some "Bug" => breakdownBug context.title context.description context.specification
   | _ => breakdownGeneric context.title context.description
       context.specification).length := by
    split <;>
      simp [breakdownFeature, breakdownUserStory, breakdownBug, breakdownGeneric]
  omega

theorem approachTasks_no_deps (a : String) :
    ∀ task ∈ addApproachSpecificTasks a, task.dependencies = none := by
  intro task htask
  rw [addApproachSpecificTasks] at htask
  rcases List.mem_append.mp htask with h | h <;> split at h <;> simp_all

/-- C9 as stated is false: filtering duplicates out of the strategy output
does not renumber the remaining tasks' dependency indices.  For a Bug whose
investigation and fix subtasks already exist as children, the filtered plan
is the single verification task, which still carries `dependencies = [1]` —
not a valid index into the one-element subtask list. -/
theorem claim_C9_counterexample :
    ¬ depsValidInPlan (generatePlan bugContextWithExistingChildren) := by
  unfold depsValidInPlan
  decide

/-- C9 (amended): every dependency index of every subtask surviving in a
generated plan is a valid index into the *pre-filtering* generated list
(strategy output plus appended approach-specific tasks); validity with
respect to the filtered `subtasks` list itself can fail once duplicates are
removed. -/
theorem claim_C9_amended_deps_valid_prefilter (context : PlanContext) :
    ∀ task ∈ (generatePlan context).subtasks, ∀ d ∈ task.dependencies.getD [],
      d < (generatedSubtasks context).length := by
  intro task htask d hd
  have hmem : task ∈ generatedSubtasks context := by
    simp only [generatePlan] at htask
    exact List.mem_of_mem_filter htask
  rw [generatedSubtasks, List.mem_append] at hmem
  rcases hmem with hstrat | happr
  · have h3 : d < 3 := by
      split at hstrat
      · exact breakdownFeature_deps _ _ _ task hstrat d hd
      · exact breakdownFeature_deps _ _ _ task hstrat d hd
      · exact breakdownUserStory_deps _ _ _ task hstrat d hd
      · exact breakdownBug_deps _ _ _ task hstrat d hd
      · exact breakdownGeneric_deps _ _ _ task hstrat d hd
    have hlen := generatedSubtasks_length_ge context
    omega
  · split at happr
    · rename_i a heq
      split at happr
      · simp at happr
      · have hnone := approachTasks_no_deps a task happr
        rw [hnone] at hd
        simp at hd
    · simp at happr

/-- Witness for the amended C9: the fix subtask of a freshly planned Bug
carries dependency index 0, valid for the 3-element generated list. -/
theorem claim_C9_witness :
    ({ title := "[Fix] Implement fix for T", description := "Implement and test the fix",
       workItemType := "Task", estimatedEffort := some 3, dependencies := some [0],
       priority := some 1 } : SubTask) ∈ (generatePlan sampleBugContext).subtasks
    ∧ (0 : Nat) < (generatedSubtasks sampleBugContext).length := by
  refine ⟨by decide, ?_⟩
  exact claim_C9_amended_deps_valid_prefilter sampleBugContext
    { title := "[Fix] Implement fix for T", description := "Implement and test the fix",
      workItemType := "Task", estimatedEffort := some 3, dependencies := some [0],
      priority := some 1 } (by decide) 0 (by decide)

theorem analyzeWorkItem_gathering (context : SpecifyContext)
    (hur : context.userResponses = [])
    (hdesc : ∀ d, context.workItem.fieldsOrEmpty.description = some d → d.length ≤ 20) :
    ∃ qs,
      analyzeWorkItem context =
        { specification := "Analyzing work item: " ++ jsStr context.workItem.fieldsOrEmpty.title,
          clarifyingQuestions := some
            ("What is the detailed description and goal of this work item?" :: qs),
          needsMoreInfo := true, state := "gathering" } := by
  have hhd : (match context.workItem.fieldsOrEmpty.description with
      | some d => decide (20 < d.length) | none => false) = false := by
    cases hd : context.workItem.fieldsOrEmpty.description with
    | none => rfl
    | some d =>
        simp only [decide_eq_false_iff_not, Nat.not_lt]
        exact hdesc d hd
  refine ⟨["What are the acceptance criteria?",
           "Are there any technical constraints or dependencies?"] ++
      ((if (context.workItem.fieldsOrEmpty.workItemType == some "User Story"
            || context.workItem.fieldsOrEmpty.workItemType == some "Feature") then
          ["What are the key user scenarios or use cases?",
           "Who are the stakeholders or end users?"]
        else []) ++
       (if context.workItem.fieldsOrEmpty.workItemType == some "Bug" then
          ["What are the steps to reproduce the issue?",
           "What is the expected vs actual behavior?"]
        else [])), ?_⟩
  simp only [analyzeWorkItem, hur, hhd, List.length_nil, List.lookup_nil]
  simp [jsTruthyStr]

/-- C10: a specify call on an item whose description is at or under the
20-character threshold, with no user answers, returns a gathering result —
`needsMoreInfo` with a non-empty question list, session stage untouched, no
specification written — and yet still mutates the session working-data: the
`specifyContext` key is overwritten with the freshly fetched work item,
children, related items and (empty) answers. -/
theorem claim_C10_gathering_still_writes_context (sessionId : String)
    (session : WorkItemSession) (workItem : WorkItem) (children related : List WorkItem)
    (hdesc : ∀ d, workItem.fieldsOrEmpty.description = some d → d.length ≤ 20) :
    ∃ result qs,
      specify sessionId (some session) workItem children related none =
        .ok (result,
          { session with
              context :=
                { session.context with
                    specifyContext := some
                      { workItem := workItem, children := children, related := related,
                        userResponses := [] } } })
      ∧ result.needsMoreInfo = true
      ∧ result.state = "gathering"
      ∧ result.clarifyingQuestions = some qs
      ∧ qs ≠ [] := by
  obtain ⟨qs, hana⟩ := analyzeWorkItem_gathering
    { workItem := workItem, children := children, related := related, userResponses := [] }
    rfl hdesc
  refine ⟨{ specification := "Analyzing work item: " ++ jsStr workItem.fieldsOrEmpty.title,
            clarifyingQuestions :=
              some ("What is the detailed description and goal of this work item?" :: qs),
            needsMoreInfo := true, state := "gathering" },
          "What is the detailed description and goal of this work item?" :: qs,
          ?_, rfl, rfl, rfl, by simp⟩
  simp only [specify, Option.getD_none]
  rw [hana]
  simp

/-- Witness for C10: a work item with no description at all, no children, no
related items and no answers, against the sample session. -/
theorem claim_C10_witness :
    ∃ result qs,
      specify "s1" (some sampleSession) {} [] [] none =
        .ok (result,
          { sampleSession with
              context :=
                { sampleSession.context with
                    specifyContext := some
                      { workItem := {}, children := [], related := [],
                        userResponses := [] } } })
      ∧ result.needsMoreInfo = true
      ∧ result.state = "gathering"
      ∧ result.clarifyingQuestions = some qs
      ∧ qs ≠ [] :=
  claim_C10_gathering_still_writes_context "s1" sampleSession {} [] []
    (by intro d hd; simp [WorkItem.fieldsOrEmpty] at hd)
